import Mathlib

/-!
Shallow embedding of drivers/gpu/drm/drm_prime.c (DRM PRIME buffer sharing).

Pointer identities (dma_buf objects, GEM objects) are modelled as natural
numbers; kernel pointer-or-error return values as the inductive KPtr; the
per-file prime registry (drm_prime_file_private.head, an intrusive list of
drm_prime_member) as a Lean list; reference counts as functions Nat -> Nat
from identity to count.  External collaborators (dma_buf_get, the driver
prime_import / prime_export callbacks, drm_gem_handle_create, kmalloc
success) are environment parameters, since their code is outside this file.
-/

namespace DrmPrime

/-- Kernel pointer-or-error value, as classified by IS_ERR / IS_ERR_OR_NULL:
NULL, an ERR_PTR-encoded error, or a valid pointer (its identity a Nat). -/
inductive KPtr where
  | null : KPtr
  | err : Int → KPtr
  | ptr : Nat → KPtr
deriving DecidableEq

/-- IS_ERR_OR_NULL. -/
def KPtr.isErrOrNull : KPtr → Bool
  | KPtr.null => true
  | KPtr.err _ => true
  | KPtr.ptr _ => false

/-- IS_ERR. -/
def KPtr.isErr : KPtr → Bool
  | KPtr.err _ => true
  | _ => false

/-- PTR_ERR: reinterpret the pointer value as an integer.  PTR_ERR(NULL) is 0;
on a valid pointer it is the raw address (never a meaningful errno). -/
def KPtr.ptrErr : KPtr → Int
  | KPtr.null => 0
  | KPtr.err e => e
  | KPtr.ptr p => Int.ofNat p

/-- The Nat identity carried by a valid pointer (0 for NULL/ERR_PTR; only
ever used on paths where the pointer is known valid). -/
def KPtr.getPtr : KPtr → Nat
  | KPtr.ptr p => p
  | _ => 0

def ENOENT : Int := -2
def ENOMEM : Int := -12
def EINVAL : Int := -22
def ENOSYS : Int := -38

/-- Acquire one reference on identity k in a refcount map (dma_buf_get /
drm_gem_object_reference side). -/
def getRef (f : Nat → Nat) (k : Nat) : Nat → Nat :=
  fun x => if x = k then f k + 1 else f x

/-- Release one reference on identity k in a refcount map (dma_buf_put /
drm_gem_object_unreference side). -/
def putRef (f : Nat → Nat) (k : Nat) : Nat → Nat :=
  fun x => if x = k then f k - 1 else f x

/-- struct drm_prime_member: one registry entry pairing a dma_buf identity
with the process-local GEM handle that represents it. -/
structure DrmPrimeMember where
  dma_buf : Nat
  handle : Nat
deriving DecidableEq

/-- The list headed at drm_prime_file_private.head. -/
abbrev PrimeList := List DrmPrimeMember

/-- drm_prime_lookup_fd_handle_mapping: linear scan for the first member whose
dma_buf pointer equals the argument; some handle models (ret 0, *handle set),
none models -ENOENT. -/
def drm_prime_lookup_fd_handle_mapping : PrimeList → Nat → Option Nat
  | [], _ => none
  | m :: rest, dma_buf =>
    if m.dma_buf = dma_buf then some m.handle
    else drm_prime_lookup_fd_handle_mapping rest dma_buf

/-- drm_prime_insert_fd_handle_mapping: kmalloc a member (allocOk models
kmalloc success) and list_add it at the head; on allocation failure return
-ENOMEM with the list untouched.  Returns (ret, resulting list). -/
def drm_prime_insert_fd_handle_mapping (allocOk : Bool) (prime : PrimeList)
    (dma_buf : Nat) (handle : Nat) : Int × PrimeList :=
  if allocOk then (0, { dma_buf := dma_buf, handle := handle } :: prime)
  else (ENOMEM, prime)

/-- drm_prime_remove_fd_handle_mapping: list_for_each_entry_safe deleting and
freeing every member whose dma_buf matches. -/
def drm_prime_remove_fd_handle_mapping (prime : PrimeList) (dma_buf : Nat) :
    PrimeList :=
  prime.filter (fun m => m.dma_buf ≠ dma_buf)

/-- drm_prime_destroy_file_private: list_for_each_entry_safe deleting and
freeing every member unconditionally. -/
def drm_prime_destroy_file_private (_prime : PrimeList) : PrimeList := []

/-- PAGE_SIZE on this platform (OMAP4 / ARM: 4 KiB). -/
def PAGE_SIZE : Nat := 4096

/-- One scatterlist entry as set by sg_set_page(iter, page, length, offset). -/
structure Segment where
  page : Nat
  length : Nat
  offset : Nat
deriving DecidableEq

/-- drm_prime_pages_to_sg: kzalloc an sg_table (sgAllocOk models that kzalloc),
sg_alloc_table for nr_pages entries (tableAllocOk models that allocation), then
sg_set_page each page in order with PAGE_SIZE length and offset 0.  Either
goto-out path kfrees the sg_table struct and returns NULL.  The second
component counts allocations made by this call that are still live on return
(0 on failure: everything it allocated was freed; 2 on success: the sg_table
struct and its segment table, transferred to the caller). -/
def drm_prime_pages_to_sg (sgAllocOk : Bool) (tableAllocOk : Bool)
    (pages : List Nat) : Option (List Segment) × Nat :=
  if sgAllocOk = false then (none, 0)
  else if tableAllocOk = false then (none, 0)
  else
    (some (pages.map (fun p => { page := p, length := PAGE_SIZE, offset := 0 })), 2)

/-- Environment of drm_prime_fd_to_handle_ioctl: the DRIVER_PRIME feature bit,
presence of the driver prime_import callback, dma_buf_get resolution of fds
(never NULL: valid dma_buf identity or ERR_PTR), the driver prime_import
callback result per dma_buf, drm_gem_handle_create result per GEM object, and
kmalloc success inside the registry insert. -/
structure ImportEnv where
  feature_prime : Bool
  has_prime_import : Bool
  dma_buf_get : Nat → Except Int Nat
  prime_import : Nat → KPtr
  gem_handle_create : Nat → Except Int Nat
  insert_alloc_ok : Bool

/-- Mutable state threaded through the import path: the per-file prime
registry, dma_buf reference counts by identity, GEM object reference counts
by identity, and counters of driver prime_import invocations and
drm_gem_handle_create invocations. -/
structure ImportSt where
  fpriv : PrimeList
  bufRef : Nat → Nat
  objRef : Nat → Nat
  importCalls : Nat
  handleCreates : Nat

/-- drm_prime_fd_to_handle_ioctl.  Returns ((ret, args.handle if written),
final state).  Follows the source line by line: feature and callback checks;
dma_buf_get (acquires a dma_buf reference); registry lookup — on hit
dma_buf_put and return the existing handle; on miss invoke prime_import
(counted), then IS_ERR_OR_NULL check with ret = PTR_ERR and goto fail_put;
drm_gem_handle_create (counted; on success the handle holds a reference)
followed unconditionally by drm_gem_object_unreference_unlocked; registry
insert — on failure goto fail (handle unreference) then fail_put
(dma_buf_put). -/
def drm_prime_fd_to_handle_ioctl (env : ImportEnv) (st : ImportSt) (fd : Nat) :
    (Int × Option Nat) × ImportSt :=
  if env.feature_prime = false then ((EINVAL, none), st)
  else if env.has_prime_import = false then ((ENOSYS, none), st)
  else
    match env.dma_buf_get fd with
    | Except.error e => ((e, none), st)
    | Except.ok dma_buf =>
      let st1 : ImportSt := { st with bufRef := getRef st.bufRef dma_buf }
      match drm_prime_lookup_fd_handle_mapping st1.fpriv dma_buf with
      | some handle =>
        ((0, some handle), { st1 with bufRef := putRef st1.bufRef dma_buf })
      | none =>
        let st2 : ImportSt := { st1 with importCalls := st1.importCalls + 1 }
        let obj := env.prime_import dma_buf
        if obj.isErrOrNull then
          ((obj.ptrErr, none), { st2 with bufRef := putRef st2.bufRef dma_buf })
        else
          let o := obj.getPtr
          let st3 : ImportSt :=
            { st2 with
                objRef := getRef st2.objRef o
                handleCreates := st2.handleCreates + 1 }
          match env.gem_handle_create o with
          | Except.error e =>
            let st4 : ImportSt := { st3 with objRef := putRef st3.objRef o }
            ((e, none), { st4 with bufRef := putRef st4.bufRef dma_buf })
          | Except.ok handle =>
            let st4 : ImportSt := { st3 with objRef := getRef st3.objRef o }
            let st5 : ImportSt := { st4 with objRef := putRef st4.objRef o }
            let ins := drm_prime_insert_fd_handle_mapping env.insert_alloc_ok
                         st5.fpriv dma_buf handle
            if ins.1 = 0 then
              ((0, some handle), { st5 with fpriv := ins.2 })
            else
              let st6 : ImportSt := { st5 with objRef := putRef st5.objRef o }
              ((ins.1, none),
               { st6 with fpriv := ins.2, bufRef := putRef st6.bufRef dma_buf })

/-- Environment of drm_prime_handle_to_fd_ioctl: the DRIVER_PRIME feature bit,
presence of the driver prime_export callback, drm_gem_object_lookup resolution
of handles, and the driver prime_export callback result per (object, flags). -/
structure ExportEnv where
  feature_prime : Bool
  has_prime_export : Bool
  gem_lookup : Nat → Option Nat
  prime_export : Nat → Nat → KPtr

/-- Mutable state threaded through the export path: each GEM object's cached
export_dma_buf field (C NULL when never exported), GEM object reference counts,
a counter of driver prime_export invocations, and the fd table built by
dma_buf_fd (fd to dma_buf identity, with fds handed out in increasing order). -/
structure ExportSt where
  export_dma_buf : Nat → KPtr
  objRef : Nat → Nat
  exportCalls : Nat
  fdTable : List (Nat × Nat)
  nextFd : Nat

/-- dma_buf_fd: bind a fresh file descriptor to the dma_buf and return it. -/
def dma_buf_fd (st : ExportSt) (buf : Nat) : Nat × ExportSt :=
  (st.nextFd,
   { st with fdTable := (st.nextFd, buf) :: st.fdTable, nextFd := st.nextFd + 1 })

/-- drm_prime_handle_to_fd_ioctl.  Returns ((ret, args.fd if written), final
state).  Follows the source: feature and callback checks; object lookup
(acquires an object reference, -ENOENT if absent); if export_dma_buf is
non-NULL reuse it (the source leaves changed flags an open TODO), otherwise
invoke prime_export (counted) and store its result into export_dma_buf before
the IS_ERR_OR_NULL check, which on failure unreferences the object and returns
PTR_ERR of the stored value; finally args.fd = dma_buf_fd(export_dma_buf). -/
def drm_prime_handle_to_fd_ioctl (env : ExportEnv) (st : ExportSt)
    (handle : Nat) (flags : Nat) : (Int × Option Nat) × ExportSt :=
  if env.feature_prime = false then ((EINVAL, none), st)
  else if env.has_prime_export = false then ((ENOSYS, none), st)
  else
    match env.gem_lookup handle with
    | none => ((ENOENT, none), st)
    | some obj =>
      let st1 : ExportSt := { st with objRef := getRef st.objRef obj }
      if st1.export_dma_buf obj ≠ KPtr.null then
        let r := dma_buf_fd st1 ((st1.export_dma_buf obj).getPtr)
        ((0, some r.1), r.2)
      else
        let res := env.prime_export obj flags
        let st2 : ExportSt :=
          { st1 with
              exportCalls := st1.exportCalls + 1
              export_dma_buf := fun o => if o = obj then res else st1.export_dma_buf o }
        if res.isErrOrNull then
          ((res.ptrErr, none), { st2 with objRef := putRef st2.objRef obj })
        else
          let r := dma_buf_fd st2 (res.getPtr)
          ((0, some r.1), r.2)

/-- n successive calls of the export ioctl with the same handle and flags,
collecting each call's (ret, fd) result in order. -/
def iterExport (env : ExportEnv) (handle : Nat) (flags : Nat) :
    Nat → ExportSt → ExportSt × List (Int × Option Nat)
  | 0, st => (st, [])
  | n + 1, st =>
    let r := drm_prime_handle_to_fd_ioctl env st handle flags
    let rest := iterExport env handle flags n r.2
    (rest.1, r.1 :: rest.2)

/-- Resolve a file descriptor to the dma_buf identity it was bound to. -/
def fdLookup : List (Nat × Nat) → Nat → Option Nat
  | [], _ => none
  | e :: rest, fd => if e.1 = fd then some e.2 else fdLookup rest fd

/-- Every fd in the table was handed out below nextFd. -/
def FdBound (st : ExportSt) : Prop := ∀ e ∈ st.fdTable, e.1 < st.nextFd

/-- A sequential operation on one process's registry session: an import ioctl
call (with the collaborator behaviour it observes), a remove, or teardown. -/
inductive RegOp where
  | imp : ImportEnv → Nat → RegOp
  | remove : Nat → RegOp
  | teardown : RegOp

/-- Apply one session operation to the import-side state. -/
def runOp (st : ImportSt) : RegOp → ImportSt
  | RegOp.imp env fd => (drm_prime_fd_to_handle_ioctl env st fd).2
  | RegOp.remove dma_buf =>
    { st with fpriv := drm_prime_remove_fd_handle_mapping st.fpriv dma_buf }
  | RegOp.teardown =>
    { st with fpriv := drm_prime_destroy_file_private st.fpriv }

/-- Apply a sequence of session operations in order. -/
def runOps (st : ImportSt) : List RegOp → ImportSt
  | [] => st
  | op :: rest => runOps (runOp st op) rest

/-- At most one registry entry per distinct dma_buf identity. -/
def UniqueIdentities (prime : PrimeList) : Prop :=
  (prime.map (fun m => m.dma_buf)).Nodup

/-- Concrete import environment for witnesses: fd resolves to dma_buf 5,
prime_import yields GEM object 7, handle creation yields handle 3. -/
def envW : ImportEnv :=
  { feature_prime := true, has_prime_import := true,
    dma_buf_get := fun _ => Except.ok 5,
    prime_import := fun _ => KPtr.ptr 7,
    gem_handle_create := fun _ => Except.ok 3,
    insert_alloc_ok := true }

/-- Concrete initial import state for witnesses: empty registry, all
reference counts zero, counters zero. -/
def st0w : ImportSt :=
  { fpriv := [], bufRef := fun _ => 0, objRef := fun _ => 0,
    importCalls := 0, handleCreates := 0 }

/-- Import environment whose driver prime_import callback returns NULL. -/
def envNullImport : ImportEnv :=
  { feature_prime := true, has_prime_import := true,
    dma_buf_get := fun _ => Except.ok 5,
    prime_import := fun _ => KPtr.null,
    gem_handle_create := fun _ => Except.ok 3,
    insert_alloc_ok := true }

/-- Export environment whose driver prime_export callback returns NULL;
handle 2 resolves to GEM object 7. -/
def envNullExport : ExportEnv :=
  { feature_prime := true, has_prime_export := true,
    gem_lookup := fun _ => some 7,
    prime_export := fun _ _ => KPtr.null }

/-- Concrete initial export state for witnesses: no cached wrapper anywhere,
object 7 holds one reference, no fds handed out yet. -/
def est0w : ExportSt :=
  { export_dma_buf := fun _ => KPtr.null, objRef := fun _ => 1,
    exportCalls := 0, fdTable := [], nextFd := 0 }

/-- Concrete export environment for witnesses: handle 2 resolves to GEM
object 7, prime_export wraps it as dma_buf 9. -/
def envExpW : ExportEnv :=
  { feature_prime := true, has_prime_export := true,
    gem_lookup := fun _ => some 7,
    prime_export := fun _ _ => KPtr.ptr 9 }

/-- Concrete import state for witnesses whose registry already maps
dma_buf 5 to handle 3. -/
def stHitW : ImportSt :=
  { fpriv := [{ dma_buf := 5, handle := 3 }], bufRef := fun _ => 0,
    objRef := fun _ => 0, importCalls := 0, handleCreates := 0 }

/-- C7: after drm_prime_destroy_file_private tears the registry down, a lookup
of every identity — previously inserted or not — returns no match. -/
theorem teardown_lookup_none (prime : PrimeList) (dma_buf : Nat) :
    drm_prime_lookup_fd_handle_mapping
      (drm_prime_destroy_file_private prime) dma_buf = none := rfl

/-- C9: when the member allocation fails, drm_prime_insert_fd_handle_mapping
returns -ENOMEM and leaves the registry exactly as it was. -/
theorem insert_alloc_failure_no_change (prime : PrimeList)
    (dma_buf : Nat) (handle : Nat) :
    drm_prime_insert_fd_handle_mapping false prime dma_buf handle =
      (ENOMEM, prime) := rfl

/-- C10: a dedup hit returns the existing handle, leaves the registry
untouched, invokes neither the driver import callback nor handle creation,
and releases the reference dma_buf_get acquired. -/
theorem import_hit_no_side_effects (env : ImportEnv) (st : ImportSt)
    (fd dma_buf handle : Nat)
    (hf : env.feature_prime = true) (hcb : env.has_prime_import = true)
    (hget : env.dma_buf_get fd = Except.ok dma_buf)
    (hhit : drm_prime_lookup_fd_handle_mapping st.fpriv dma_buf = some handle) :
    (drm_prime_fd_to_handle_ioctl env st fd).1 = (0, some handle) ∧
    (drm_prime_fd_to_handle_ioctl env st fd).2.fpriv = st.fpriv ∧
    (drm_prime_fd_to_handle_ioctl env st fd).2.importCalls = st.importCalls ∧
    (drm_prime_fd_to_handle_ioctl env st fd).2.handleCreates = st.handleCreates ∧
    (drm_prime_fd_to_handle_ioctl env st fd).2.bufRef dma_buf = st.bufRef dma_buf := by
  simp [drm_prime_fd_to_handle_ioctl, hf, hcb, hget, hhit, getRef, putRef]

/-- Witness for C10 at a concrete environment and a registry that already
maps dma_buf 5 to handle 3. -/
theorem import_hit_no_side_effects_witness :
    envW.feature_prime = true ∧
    ((drm_prime_fd_to_handle_ioctl envW stHitW 4).1 = (0, some 3) ∧
     (drm_prime_fd_to_handle_ioctl envW stHitW 4).2.fpriv = stHitW.fpriv ∧
     (drm_prime_fd_to_handle_ioctl envW stHitW 4).2.importCalls = stHitW.importCalls ∧
     (drm_prime_fd_to_handle_ioctl envW stHitW 4).2.handleCreates = stHitW.handleCreates ∧
     (drm_prime_fd_to_handle_ioctl envW stHitW 4).2.bufRef 5 = stHitW.bufRef 5) :=
  ⟨rfl, import_hit_no_side_effects envW stHitW 4 5 3 rfl rfl rfl rfl⟩

/-- C1: two sequential import calls whose descriptors resolve to the same
dma_buf, starting from a registry with no entry for it and with the driver
and allocation succeeding, both return the same handle; the driver import
callback runs exactly once, on the first call; and the second call releases
the dma_buf reference it acquired when resolving its descriptor. -/
theorem import_dedup (env : ImportEnv) (st0 : ImportSt)
    (fd1 fd2 dma_buf obj handle : Nat)
    (hf : env.feature_prime = true) (hcb : env.has_prime_import = true)
    (hget1 : env.dma_buf_get fd1 = Except.ok dma_buf)
    (hget2 : env.dma_buf_get fd2 = Except.ok dma_buf)
    (hmiss : drm_prime_lookup_fd_handle_mapping st0.fpriv dma_buf = none)
    (himp : env.prime_import dma_buf = KPtr.ptr obj)
    (hhc : env.gem_handle_create obj = Except.ok handle)
    (hins : env.insert_alloc_ok = true) :
    (drm_prime_fd_to_handle_ioctl env st0 fd1).1 = (0, some handle) ∧
    (drm_prime_fd_to_handle_ioctl env
        (drm_prime_fd_to_handle_ioctl env st0 fd1).2 fd2).1 = (0, some handle) ∧
    (drm_prime_fd_to_handle_ioctl env st0 fd1).2.importCalls =
      st0.importCalls + 1 ∧
    (drm_prime_fd_to_handle_ioctl env
        (drm_prime_fd_to_handle_ioctl env st0 fd1).2 fd2).2.importCalls =
      st0.importCalls + 1 ∧
    (drm_prime_fd_to_handle_ioctl env
        (drm_prime_fd_to_handle_ioctl env st0 fd1).2 fd2).2.bufRef dma_buf =
      (drm_prime_fd_to_handle_ioctl env st0 fd1).2.bufRef dma_buf := by
  simp [drm_prime_fd_to_handle_ioctl, hf, hcb, hget1, hget2, hmiss, himp, hhc,
    hins, drm_prime_insert_fd_handle_mapping, drm_prime_lookup_fd_handle_mapping,
    KPtr.isErrOrNull, KPtr.getPtr, getRef, putRef]

/-- Witness for C1 at a concrete environment, from the empty registry. -/
theorem import_dedup_witness :
    envW.insert_alloc_ok = true ∧
    ((drm_prime_fd_to_handle_ioctl envW st0w 1).1 = (0, some 3) ∧
     (drm_prime_fd_to_handle_ioctl envW
         (drm_prime_fd_to_handle_ioctl envW st0w 1).2 2).1 = (0, some 3) ∧
     (drm_prime_fd_to_handle_ioctl envW st0w 1).2.importCalls =
       st0w.importCalls + 1 ∧
     (drm_prime_fd_to_handle_ioctl envW
         (drm_prime_fd_to_handle_ioctl envW st0w 1).2 2).2.importCalls =
       st0w.importCalls + 1 ∧
     (drm_prime_fd_to_handle_ioctl envW
         (drm_prime_fd_to_handle_ioctl envW st0w 1).2 2).2.bufRef 5 =
       (drm_prime_fd_to_handle_ioctl envW st0w 1).2.bufRef 5) :=
  ⟨rfl, import_dedup envW st0w 1 2 5 7 3 rfl rfl rfl rfl rfl rfl rfl rfl⟩

/-- C3 (code-bug evidence): when the driver import callback returns NULL, the
ioctl for the import path does release the dma_buf reference acquired in
step 1, but — via
ret = PTR_ERR(NULL) = 0 on the fail_put path — returns 0, i.e. success, to the
caller, without writing any handle. -/
theorem import_null_obj_returns_success :
    (drm_prime_fd_to_handle_ioctl envNullImport st0w 4).1 = (0, none) ∧
    (drm_prime_fd_to_handle_ioctl envNullImport st0w 4).2.bufRef 5 =
      st0w.bufRef 5 ∧
    (drm_prime_fd_to_handle_ioctl envNullImport st0w 4).2.fpriv = [] := by
  refine ⟨rfl, ?_, rfl⟩
  simp [drm_prime_fd_to_handle_ioctl, envNullImport, st0w,
    drm_prime_lookup_fd_handle_mapping, KPtr.isErrOrNull, getRef, putRef]

/-- C4 (code-bug evidence): when the driver export callback returns NULL, the
export ioctl does release the object reference it took in the lookup, but —
via return PTR_ERR(NULL) = 0 — returns 0, i.e. success, to the caller,
without writing any descriptor. -/
theorem export_null_wrapper_returns_success :
    (drm_prime_handle_to_fd_ioctl envNullExport est0w 2 0).1 = (0, none) ∧
    (drm_prime_handle_to_fd_ioctl envNullExport est0w 2 0).2.objRef 7 =
      est0w.objRef 7 ∧
    (drm_prime_handle_to_fd_ioctl envNullExport est0w 2 0).2.exportCalls = 1 := by
  refine ⟨rfl, ?_, rfl⟩
  simp [drm_prime_handle_to_fd_ioctl, envNullExport, est0w,
    KPtr.isErrOrNull, getRef, putRef]

/-- Helper: a lookup misses exactly when no registry entry carries the
identity. -/
theorem lookup_eq_none_iff (prime : PrimeList) (dma_buf : Nat) :
    drm_prime_lookup_fd_handle_mapping prime dma_buf = none ↔
      ∀ m ∈ prime, m.dma_buf ≠ dma_buf := by
  induction prime with
  | nil => simp [drm_prime_lookup_fd_handle_mapping]
  | cons m rest ih =>
    by_cases h : m.dma_buf = dma_buf <;>
      simp [drm_prime_lookup_fd_handle_mapping, h, ih]

/-- C5: a failure injected at step 3 (driver import fails or returns
null/invalid), step 4 (handle creation), or step 5 (registry insert
allocation) leaves the registry exactly as before — in particular with zero
entries for the identity being imported — and restores the dma_buf's
reference count to its pre-call value. -/
theorem import_rollback (env : ImportEnv) (st0 : ImportSt) (fd dma_buf : Nat)
    (hf : env.feature_prime = true) (hcb : env.has_prime_import = true)
    (hget : env.dma_buf_get fd = Except.ok dma_buf)
    (hmiss : drm_prime_lookup_fd_handle_mapping st0.fpriv dma_buf = none)
    (hfail : (env.prime_import dma_buf).isErrOrNull = true ∨
      (∃ obj, env.prime_import dma_buf = KPtr.ptr obj ∧
        ∃ e, env.gem_handle_create obj = Except.error e) ∨
      (∃ obj handle, env.prime_import dma_buf = KPtr.ptr obj ∧
        env.gem_handle_create obj = Except.ok handle ∧
        env.insert_alloc_ok = false)) :
    (drm_prime_fd_to_handle_ioctl env st0 fd).2.fpriv = st0.fpriv ∧
    (∀ m ∈ (drm_prime_fd_to_handle_ioctl env st0 fd).2.fpriv,
      m.dma_buf ≠ dma_buf) ∧
    (drm_prime_fd_to_handle_ioctl env st0 fd).2.bufRef dma_buf =
      st0.bufRef dma_buf := by
  have hnomem : ∀ m ∈ st0.fpriv, m.dma_buf ≠ dma_buf :=
    (lookup_eq_none_iff st0.fpriv dma_buf).mp hmiss
  rcases hfail with h3 | ⟨obj, himp, e, hhc⟩ | ⟨obj, handle, himp, hhc, hins⟩
  · refine ⟨?_, ?_, ?_⟩ <;>
      simp_all [drm_prime_fd_to_handle_ioctl, hf, hcb, hget, hmiss, h3,
        getRef, putRef]
  · refine ⟨?_, ?_, ?_⟩ <;>
      simp_all [drm_prime_fd_to_handle_ioctl, hf, hcb, hget, hmiss, himp, hhc,
        KPtr.isErrOrNull, KPtr.getPtr, getRef, putRef]
  · refine ⟨?_, ?_, ?_⟩ <;>
      simp_all [drm_prime_fd_to_handle_ioctl, hf, hcb, hget, hmiss, himp, hhc,
        hins, drm_prime_insert_fd_handle_mapping, KPtr.isErrOrNull,
        KPtr.getPtr, getRef, putRef, ENOMEM]

/-- Witness for C5 at a concrete environment in which the driver import
callback fails with ERR_PTR(-EINVAL), from the empty registry. -/
theorem import_rollback_witness :
    (ImportEnv.mk true true (fun _ => Except.ok 5) (fun _ => KPtr.err (-22))
        (fun _ => Except.ok 3) true).feature_prime = true ∧
    ((drm_prime_fd_to_handle_ioctl
        (ImportEnv.mk true true (fun _ => Except.ok 5) (fun _ => KPtr.err (-22))
          (fun _ => Except.ok 3) true) st0w 4).2.fpriv = st0w.fpriv ∧
     (∀ m ∈ (drm_prime_fd_to_handle_ioctl
        (ImportEnv.mk true true (fun _ => Except.ok 5) (fun _ => KPtr.err (-22))
          (fun _ => Except.ok 3) true) st0w 4).2.fpriv, m.dma_buf ≠ 5) ∧
     (drm_prime_fd_to_handle_ioctl
        (ImportEnv.mk true true (fun _ => Except.ok 5) (fun _ => KPtr.err (-22))
          (fun _ => Except.ok 3) true) st0w 4).2.bufRef 5 = st0w.bufRef 5) :=
  ⟨rfl, import_rollback _ st0w 4 5 rfl rfl rfl rfl (Or.inl rfl)⟩

/-- Helper: one import call either leaves the registry list unchanged or
conses one new entry whose identity missed the authoritative lookup. -/
theorem import_fpriv_cases (env : ImportEnv) (st : ImportSt) (fd : Nat) :
    (drm_prime_fd_to_handle_ioctl env st fd).2.fpriv = st.fpriv ∨
    ∃ dma_buf handle,
      drm_prime_lookup_fd_handle_mapping st.fpriv dma_buf = none ∧
      (drm_prime_fd_to_handle_ioctl env st fd).2.fpriv =
        { dma_buf := dma_buf, handle := handle } :: st.fpriv := by
  by_cases hf : env.feature_prime = false
  · left; simp [drm_prime_fd_to_handle_ioctl, hf]
  by_cases hcb : env.has_prime_import = false
  · left; simp [drm_prime_fd_to_handle_ioctl, hf, hcb]
  cases hget : env.dma_buf_get fd with
  | error e => left; simp [drm_prime_fd_to_handle_ioctl, hf, hcb, hget]
  | ok dma_buf =>
    cases hlk : drm_prime_lookup_fd_handle_mapping st.fpriv dma_buf with
    | some handle =>
      left; simp [drm_prime_fd_to_handle_ioctl, hf, hcb, hget, hlk]
    | none =>
      by_cases himp : (env.prime_import dma_buf).isErrOrNull = true
      · left; simp [drm_prime_fd_to_handle_ioctl, hf, hcb, hget, hlk, himp]
      cases hhc : env.gem_handle_create (env.prime_import dma_buf).getPtr with
      | error e =>
        left; simp [drm_prime_fd_to_handle_ioctl, hf, hcb, hget, hlk, himp, hhc]
      | ok handle =>
        by_cases hins : env.insert_alloc_ok
        · right
          exact ⟨dma_buf, handle, hlk, by
            simp [drm_prime_fd_to_handle_ioctl, hf, hcb, hget, hlk, himp, hhc,
              hins, drm_prime_insert_fd_handle_mapping]⟩
        · left
          simp [drm_prime_fd_to_handle_ioctl, hf, hcb, hget, hlk, himp, hhc,
            hins, drm_prime_insert_fd_handle_mapping, ENOMEM]

/-- Helper: an import call preserves uniqueness of registry identities,
because it inserts only after the lookup missed. -/
theorem import_preserves_unique (env : ImportEnv) (st : ImportSt) (fd : Nat)
    (h : UniqueIdentities st.fpriv) :
    UniqueIdentities (drm_prime_fd_to_handle_ioctl env st fd).2.fpriv := by
  rcases import_fpriv_cases env st fd with heq | ⟨dma_buf, handle, hnone, heq⟩
  · rw [heq]; exact h
  · rw [heq]
    unfold UniqueIdentities at h ⊢
    rw [List.map_cons, List.nodup_cons]
    refine ⟨?_, h⟩
    intro hmem
    rcases List.mem_map.mp hmem with ⟨m, hm, hdb⟩
    exact (lookup_eq_none_iff st.fpriv dma_buf).mp hnone m hm hdb

/-- Helper: every session operation preserves uniqueness of registry
identities. -/
theorem runOp_preserves_unique (st : ImportSt) (op : RegOp)
    (h : UniqueIdentities st.fpriv) : UniqueIdentities (runOp st op).fpriv := by
  cases op with
  | imp env fd => exact import_preserves_unique env st fd h
  | remove dma_buf =>
    unfold UniqueIdentities at h ⊢
    exact List.Nodup.sublist
      (List.Sublist.map _ (List.filter_sublist st.fpriv)) h
  | teardown => simp [runOp, drm_prime_destroy_file_private, UniqueIdentities]

/-- Helper: uniqueness of registry identities is preserved by any operation
sequence. -/
theorem runOps_preserves_unique (st : ImportSt) (ops : List RegOp)
    (h : UniqueIdentities st.fpriv) :
    UniqueIdentities (runOps st ops).fpriv := by
  induction ops generalizing st with
  | nil => exact h
  | cons op rest ih => exact ih (runOp st op) (runOp_preserves_unique st op h)

/-- C8: starting from the empty registry, after any sequential mix of import,
remove, and teardown operations, the registry holds at most one entry per
distinct dma_buf identity. -/
theorem registry_unique_identity (st0 : ImportSt) (ops : List RegOp)
    (hinit : st0.fpriv = []) :
    UniqueIdentities (runOps st0 ops).fpriv := by
  refine runOps_preserves_unique st0 ops ?_
  rw [hinit]
  simp [UniqueIdentities]

/-- Witness for C8: a concrete run of two imports of the same buffer, a
remove, and a teardown from the empty registry. -/
theorem registry_unique_identity_witness :
    st0w.fpriv = [] ∧
    UniqueIdentities ((runOps st0w
      [RegOp.imp envW 1, RegOp.imp envW 2, RegOp.remove 5,
       RegOp.teardown]).fpriv) :=
  ⟨rfl, registry_unique_identity st0w
    [RegOp.imp envW 1, RegOp.imp envW 2, RegOp.remove 5, RegOp.teardown] rfl⟩

/-- Helper: an export call that finds a valid cached wrapper takes the cached
branch: no driver callback, the cached field untouched, a fresh fd bound to
the cached dma_buf. -/
theorem export_cached_step (env : ExportEnv) (st : ExportSt)
    (handle flags obj p : Nat)
    (hf : env.feature_prime = true) (hcb : env.has_prime_export = true)
    (hlk : env.gem_lookup handle = some obj)
    (hc : st.export_dma_buf obj = KPtr.ptr p) :
    drm_prime_handle_to_fd_ioctl env st handle flags =
      ((0, some st.nextFd),
       { st with
           objRef := getRef st.objRef obj
           fdTable := (st.nextFd, p) :: st.fdTable
           nextFd := st.nextFd + 1 }) := by
  simp [drm_prime_handle_to_fd_ioctl, hf, hcb, hlk, hc, dma_buf_fd, KPtr.getPtr]

/-- Helper: an export call on an object with no cached wrapper, whose driver
callback returns a valid dma_buf, invokes the callback once, caches the
result, and binds a fresh fd to it. -/
theorem export_first_step (env : ExportEnv) (st : ExportSt)
    (handle flags obj p : Nat)
    (hf : env.feature_prime = true) (hcb : env.has_prime_export = true)
    (hlk : env.gem_lookup handle = some obj)
    (hnull : st.export_dma_buf obj = KPtr.null)
    (hexp : env.prime_export obj flags = KPtr.ptr p) :
    drm_prime_handle_to_fd_ioctl env st handle flags =
      ((0, some st.nextFd),
       { st with
           objRef := getRef st.objRef obj
           exportCalls := st.exportCalls + 1
           export_dma_buf := fun o => if o = obj then KPtr.ptr p
             else st.export_dma_buf o
           fdTable := (st.nextFd, p) :: st.fdTable
           nextFd := st.nextFd + 1 }) := by
  simp [drm_prime_handle_to_fd_ioctl, hf, hcb, hlk, hnull, hexp, dma_buf_fd,
    KPtr.isErrOrNull, KPtr.getPtr]

/-- Helper: a successful fd lookup means the pair is in the table. -/
theorem fdLookup_mem (tbl : List (Nat × Nat)) (fd v : Nat)
    (h : fdLookup tbl fd = some v) : (fd, v) ∈ tbl := by
  induction tbl with
  | nil => simp [fdLookup] at h
  | cons e rest ih =>
    rcases e with ⟨a, b⟩
    by_cases he : a = fd
    · simp [fdLookup, he] at h
      simp [he, h]
    · simp [fdLookup, he] at h
      exact List.mem_cons_of_mem _ (ih h)

/-- Helper: any number of export calls starting from a state whose object
already carries a valid cached wrapper never invoke the driver callback,
leave every cached field unchanged, keep the fd table bounded and monotone,
and return only fresh fds bound to the cached dma_buf. -/
theorem iter_cached (env : ExportEnv) (handle flags obj p : Nat) (n : Nat)
    (st : ExportSt)
    (hf : env.feature_prime = true) (hcb : env.has_prime_export = true)
    (hlk : env.gem_lookup handle = some obj)
    (hc : st.export_dma_buf obj = KPtr.ptr p)
    (hbound : FdBound st) :
    (iterExport env handle flags n st).1.exportCalls = st.exportCalls ∧
    (iterExport env handle flags n st).1.export_dma_buf = st.export_dma_buf ∧
    FdBound (iterExport env handle flags n st).1 ∧
    (∀ fd v, fdLookup st.fdTable fd = some v →
      fdLookup (iterExport env handle flags n st).1.fdTable fd = some v) ∧
    ∀ r ∈ (iterExport env handle flags n st).2,
      ∃ fd, r = (0, some fd) ∧
        fdLookup (iterExport env handle flags n st).1.fdTable fd = some p := by
  induction n generalizing st with
  | zero =>
    refine ⟨rfl, rfl, hbound, fun fd v h => h, ?_⟩
    intro r hr
    simp [iterExport] at hr
  | succ n ih =>
    have hstep := export_cached_step env st handle flags obj p hf hcb hlk hc
    have hb1 : FdBound (drm_prime_handle_to_fd_ioctl env st handle flags).2 := by
      rw [hstep]
      intro e he
      simp only [List.mem_cons] at he
      rcases he with he | he
      · simp [he]
      · exact Nat.lt_succ_of_lt (hbound e he)
    have hc1 : (drm_prime_handle_to_fd_ioctl env st handle flags).2.export_dma_buf
        obj = KPtr.ptr p := by rw [hstep]; exact hc
    obtain ⟨ihcalls, ihfield, ihbnd, ihpres, ihres⟩ :=
      ih (drm_prime_handle_to_fd_ioctl env st handle flags).2 hc1 hb1
    have hpres1 : ∀ fd v, fdLookup st.fdTable fd = some v →
        fdLookup (drm_prime_handle_to_fd_ioctl env st handle flags).2.fdTable
          fd = some v := by
      intro fd v h
      rw [hstep]
      have hne : fd ≠ st.nextFd :=
        Nat.ne_of_lt (hbound (fd, v) (fdLookup_mem st.fdTable fd v h))
      simp [fdLookup, hne, Ne.symm hne, h]
    have hnew : fdLookup (drm_prime_handle_to_fd_ioctl env st
        handle flags).2.fdTable st.nextFd = some p := by
      rw [hstep]; simp [fdLookup]
    refine ⟨?_, ?_, ?_, ?_, ?_⟩
    · simp only [iterExport]
      rw [ihcalls, hstep]
    · simp only [iterExport]
      rw [ihfield, hstep]
    · simp only [iterExport]
      exact ihbnd
    · intro fd v h
      simp only [iterExport]
      exact ihpres fd v (hpres1 fd v h)
    · intro r hr
      simp only [iterExport, List.mem_cons] at hr
      rcases hr with hr | hr
      · refine ⟨st.nextFd, ?_, ?_⟩
        · rw [hr, hstep]
        · simp only [iterExport]
          exact ihpres st.nextFd p hnew
      · simp only [iterExport]
        exact ihres r hr

/-- C2: from a state where the object has no cached wrapper, n+1 export calls
with the same flags (driver callback succeeding) invoke the driver export
callback exactly once; afterwards the wrapper stays cached and every call
returned success with a descriptor that resolves to that one dma_buf. -/
theorem export_idempotent (env : ExportEnv) (st0 : ExportSt)
    (handle flags obj p : Nat) (n : Nat)
    (hf : env.feature_prime = true) (hcb : env.has_prime_export = true)
    (hlk : env.gem_lookup handle = some obj)
    (hnull : st0.export_dma_buf obj = KPtr.null)
    (hexp : env.prime_export obj flags = KPtr.ptr p)
    (hbound : FdBound st0) :
    (iterExport env handle flags (n + 1) st0).1.exportCalls =
      st0.exportCalls + 1 ∧
    (iterExport env handle flags (n + 1) st0).1.export_dma_buf obj =
      KPtr.ptr p ∧
    ∀ r ∈ (iterExport env handle flags (n + 1) st0).2,
      ∃ fd, r = (0, some fd) ∧
        fdLookup (iterExport env handle flags (n + 1) st0).1.fdTable fd =
          some p := by
  have hstep := export_first_step env st0 handle flags obj p hf hcb hlk hnull hexp
  have hb1 : FdBound (drm_prime_handle_to_fd_ioctl env st0 handle flags).2 := by
    rw [hstep]
    intro e he
    simp only [List.mem_cons] at he
    rcases he with he | he
    · simp [he]
    · exact Nat.lt_succ_of_lt (hbound e he)
  have hc1 : (drm_prime_handle_to_fd_ioctl env st0 handle flags).2.export_dma_buf
      obj = KPtr.ptr p := by rw [hstep]; simp
  obtain ⟨ihcalls, ihfield, ihbnd, ihpres, ihres⟩ :=
    iter_cached env handle flags obj p n
      (drm_prime_handle_to_fd_ioctl env st0 handle flags).2 hf hcb hlk hc1 hb1
  have hnew : fdLookup (drm_prime_handle_to_fd_ioctl env st0
      handle flags).2.fdTable st0.nextFd = some p := by
    rw [hstep]; simp [fdLookup]
  refine ⟨?_, ?_, ?_⟩
  · simp only [iterExport]
    rw [ihcalls, hstep]
  · simp only [iterExport]
    rw [ihfield]
    exact hc1
  · intro r hr
    simp only [iterExport, List.mem_cons] at hr
    rcases hr with hr | hr
    · refine ⟨st0.nextFd, ?_, ?_⟩
      · rw [hr, hstep]
      · simp only [iterExport]
        exact ihpres st0.nextFd p hnew
    · simp only [iterExport]
      exact ihres r hr

/-- Witness for C2: three export calls on handle 2 (object 7, wrapped as
dma_buf 9) from a fresh state. -/
theorem export_idempotent_witness :
    est0w.export_dma_buf 7 = KPtr.null ∧
    ((iterExport envExpW 2 0 (2 + 1) est0w).1.exportCalls =
       est0w.exportCalls + 1 ∧
     (iterExport envExpW 2 0 (2 + 1) est0w).1.export_dma_buf 7 = KPtr.ptr 9 ∧
     ∀ r ∈ (iterExport envExpW 2 0 (2 + 1) est0w).2,
       ∃ fd, r = (0, some fd) ∧
         fdLookup (iterExport envExpW 2 0 (2 + 1) est0w).1.fdTable fd =
           some 9) :=
  ⟨rfl, export_idempotent envExpW est0w 2 0 7 9 2 rfl rfl rfl rfl rfl
    (fun e he => absurd he (List.not_mem_nil e))⟩

/-- C6: for N >= 1 pages, when both allocations succeed the builder returns
exactly N segments in input order, each covering one full page (offset 0,
PAGE_SIZE length); when either allocation fails it returns the failure with
nothing it allocated left live. -/
theorem pages_to_sg_spec (sgAllocOk tableAllocOk : Bool) (pages : List Nat)
    (_hN : 1 ≤ pages.length) :
    (sgAllocOk = true ∧ tableAllocOk = true →
      ∃ segs, (drm_prime_pages_to_sg sgAllocOk tableAllocOk pages).1 =
          some segs ∧
        segs.length = pages.length ∧
        (∀ i : Nat, segs[i]? = Option.map
          (fun p => { page := p, length := PAGE_SIZE, offset := 0 : Segment })
          pages[i]?) ∧
        ∀ s ∈ segs, s.offset = 0 ∧ s.length = PAGE_SIZE) ∧
    (sgAllocOk = false ∨ tableAllocOk = false →
      drm_prime_pages_to_sg sgAllocOk tableAllocOk pages = (none, 0)) := by
  constructor
  · rintro ⟨hsg, htb⟩
    refine ⟨pages.map
      (fun p => { page := p, length := PAGE_SIZE, offset := 0 }), ?_, ?_, ?_, ?_⟩
    · simp [drm_prime_pages_to_sg, hsg, htb]
    · simp
    · intro i
      simp [List.getElem?_map]
    · intro s hs
      rcases List.mem_map.mp hs with ⟨p, _, hp⟩
      simp [← hp]
  · rintro (hsg | htb)
    · simp [drm_prime_pages_to_sg, hsg]
    · simp [drm_prime_pages_to_sg, htb]

/-- Witness for C6: the page sequence [10, 11, 12] with both allocations
succeeding. -/
theorem pages_to_sg_spec_witness :
    1 ≤ [10, 11, 12].length ∧
    ((true = true ∧ true = true →
      ∃ segs, (drm_prime_pages_to_sg true true [10, 11, 12]).1 = some segs ∧
        segs.length = [10, 11, 12].length ∧
        (∀ i : Nat, segs[i]? = Option.map
          (fun p => { page := p, length := PAGE_SIZE, offset := 0 : Segment })
          [10, 11, 12][i]?) ∧
        ∀ s ∈ segs, s.offset = 0 ∧ s.length = PAGE_SIZE) ∧
     (true = false ∨ true = false →
      drm_prime_pages_to_sg true true [10, 11, 12] = (none, 0))) :=
  ⟨by decide, pages_to_sg_spec true true [10, 11, 12] (by decide)⟩

end DrmPrime
